import Mathlib

/-!
Verification of the Gazebo joint state cache (SimbodyHingeJoint, from
src/unnamed/part_000) and the controller rate-gated update scheduler
(Controller, from src/server/controllers/Controller.cc).

C++ doubles are modelled as exact rationals (ℚ).  The external SimTK
solver state is modelled as a per-joint view `SimState`: the list of this
joint's generalized coordinates (Q) and generalized velocities (U), with
the library accessors getOneQ / getOneU / setOneQ / setOneU realized as
list reads and writes.  The `SimTK::NaN` sentinel that the C++ code
returns for invalid indices is modelled by a dedicated constructor of
`GzReal`, since NaN is not a rational number.  Console output matters to
the spec (error logs versus diagnostic logs), so each operation that logs
returns the list of messages it emits (`logErr` for gzerr, `logDbg` for
gzdbg).
-/

namespace Gazebo

/-- A C++ double as observed through this API: either an ordinary finite
value or the `SimTK::NaN` sentinel. -/
inductive GzReal where
  | nan : GzReal
  | fin : ℚ → GzReal
deriving DecidableEq, Repr

/-- A console message severity: `logErr` models a `gzerr` emission and
`logDbg` models a `gzdbg` emission. -/
inductive LogMsg where
  | logErr : LogMsg
  | logDbg : LogMsg
deriving DecidableEq, Repr

/-- The external solver state (`SimTK::State`), restricted to the view a
single joint's mobilized body has of it: the joint's generalized
coordinates `q` and generalized velocities `u`.  `mobod.getNumQ(state)`
is `q.length` and `mobod.getNumU(state)` is `u.length`. -/
structure SimState where
  q : List ℚ
  u : List ℚ
deriving DecidableEq, Repr

/-- `mobod.getOneQ(state, i)`: read coordinate `i` from the state. -/
def SimState.getOneQ (s : SimState) (i : Nat) : ℚ :=
  s.q.getD i 0

/-- `mobod.getOneU(state, i)`: read velocity `i` from the state. -/
def SimState.getOneU (s : SimState) (i : Nat) : ℚ :=
  s.u.getD i 0

/-- `mobod.setOneQ(state, i, v)`: write coordinate `i` of the state. -/
def SimState.setOneQ (s : SimState) (i : Nat) (v : ℚ) : SimState :=
  { s with q := s.q.set i v }

/-- `mobod.setOneU(state, i, v)`: write velocity `i` of the state. -/
def SimState.setOneU (s : SimState) (i : Nat) (v : ℚ) : SimState :=
  { s with u := s.u.set i v }

/-- The mutable state of a `SimbodyHingeJoint` adapter together with the
external collaborators it dereferences.  `mobodIsEmptyHandle` models
`this->mobod.isEmptyHandle()`; `hasSimbodyPhysics` models the null test
on the `this->simbodyPhysics` pointer; `simbodyPhysicsInitialized` and
`simbodyPhysicsStepped` are the flags read from that object;
`angleCount` is the value of the (external, header-defined)
`GetAngleCount()`; `integState` is the state held by
`this->simbodyPhysics->integ` (both `getState()` and
`updAdvancedState()` resolve to it in this single-threaded model);
`discreteForces` models the per-mobility entries of
`this->simbodyPhysics->discreteForces`; `simbodyQ` and `simbodyU` are
the joint's own cache vectors. -/
structure SimbodyHingeJoint where
  mobodIsEmptyHandle : Bool
  physicsInitialized : Bool
  hasSimbodyPhysics : Bool
  simbodyPhysicsInitialized : Bool
  simbodyPhysicsStepped : Bool
  angleCount : Nat
  integState : SimState
  discreteForces : List ℚ
  simbodyQ : List ℚ
  simbodyU : List ℚ
deriving DecidableEq, Repr

/-- `GetAngleCount()` (defined in the HingeJoint base-class header, which
is outside the provided sources; for a hinge it reports the joint's
coordinate and velocity count).  Modelled as an abstract per-joint
count. -/
def SimbodyHingeJoint.GetAngleCount (j : SimbodyHingeJoint) : Nat :=
  j.angleCount

/-- `SimbodyHingeJoint::SetVelocity(_index, _rate)`: if `_index` is below
the angle count, `setOneU` on the advanced state; otherwise emit a
`gzerr` and do nothing. -/
def SimbodyHingeJoint.SetVelocity (j : SimbodyHingeJoint) (index : Nat) (rate : ℚ) :
    SimbodyHingeJoint × List LogMsg :=
  if index < j.GetAngleCount then
    ({ j with integState := j.integState.setOneU index rate }, [])
  else
    (j, [LogMsg.logErr])

/-- `SimbodyHingeJoint::GetVelocity(_index)`: in range and fully
initialized, read `getOneU` from the live state; in range but not yet
initialized, emit a `gzdbg` and return `0.0`; out of range, emit a
`gzerr` and return `SimTK::NaN`.  The method is `const`; the joint in
the returned triple is the (unchanged) post-state. -/
def SimbodyHingeJoint.GetVelocity (j : SimbodyHingeJoint) (index : Nat) :
    SimbodyHingeJoint × GzReal × List LogMsg :=
  if index < j.GetAngleCount then
    if j.physicsInitialized && j.simbodyPhysicsInitialized then
      (j, GzReal.fin (j.integState.getOneU index), [])
    else
      (j, GzReal.fin 0, [LogMsg.logDbg])
  else
    (j, GzReal.nan, [LogMsg.logErr])

/-- `SimbodyHingeJoint::SetForceImpl(_index, _torque)`: if `_index` is in
range and physics is initialized, `setOneMobilityForce` on the advanced
state; otherwise do nothing (the source has no else branch and logs
nothing). -/
def SimbodyHingeJoint.SetForceImpl (j : SimbodyHingeJoint) (index : Nat) (torque : ℚ) :
    SimbodyHingeJoint × List LogMsg :=
  if index < j.GetAngleCount && j.physicsInitialized then
    ({ j with discreteForces := j.discreteForces.set index torque }, [])
  else
    (j, [])

/-- A 3-vector of observed doubles, as returned by `GetGlobalAxis`. -/
structure Vector3 where
  x : GzReal
  y : GzReal
  z : GzReal
deriving DecidableEq, Repr

/-- Wrap an external finite 3-vector as a `Vector3` of observed values. -/
def finVec3 (v : ℚ × ℚ × ℚ) : Vector3 :=
  ⟨GzReal.fin v.1, GzReal.fin v.2.1, GzReal.fin v.2.2⟩

/-- `SimbodyHingeJoint::GetGlobalAxis(_index)`: when the physics object
exists, has stepped, and the index is in range, return the Z axis of the
outboard frame expressed in the ground frame (an external solver
computation, passed in as `zW`); otherwise, an out-of-range index yields
the NaN vector with a `gzerr`, and an in-range index before stepping
yields the locally computed axis (the external
`GetAxisFrame(_index).RotateVector(GetLocalAxis(_index))`, passed in as
`localAxis`) with a `gzdbg`. -/
def SimbodyHingeJoint.GetGlobalAxis (j : SimbodyHingeJoint)
    (zW localAxis : ℚ × ℚ × ℚ) (index : Nat) : Vector3 × List LogMsg :=
  if j.hasSimbodyPhysics && j.simbodyPhysicsStepped
      && decide (index < j.GetAngleCount) then
    (finVec3 zW, [])
  else
    if j.GetAngleCount ≤ index then
      (⟨GzReal.nan, GzReal.nan, GzReal.nan⟩, [LogMsg.logErr])
    else
      (finVec3 localAxis, [LogMsg.logDbg])

/-- `SimbodyHingeJoint::GetAngleImpl(_index)`: in range and fully
initialized, read `getOneQ` from the live state; in range but not yet
initialized, emit a `gzdbg` and return the `0.0` angle; out of range,
emit a `gzerr` and return `Angle(SimTK::NaN)`. -/
def SimbodyHingeJoint.GetAngleImpl (j : SimbodyHingeJoint) (index : Nat) :
    SimbodyHingeJoint × GzReal × List LogMsg :=
  if index < j.GetAngleCount then
    if j.physicsInitialized && j.simbodyPhysicsInitialized then
      (j, GzReal.fin (j.integState.getOneQ index), [])
    else
      (j, GzReal.fin 0, [LogMsg.logDbg])
  else
    (j, GzReal.nan, [LogMsg.logErr])

/-- `SimbodyHingeJoint::SaveSimbodyState(_state)`: no-op on an empty
mobilized-body handle; otherwise resize each cache vector that is
currently empty to the state's reported count (vector resize fills with
`0.0`), then copy every coordinate and velocity from the state into the
cache, one index at a time up to each cache's size. -/
def SimbodyHingeJoint.SaveSimbodyState (j : SimbodyHingeJoint) (s : SimState) :
    SimbodyHingeJoint :=
  if j.mobodIsEmptyHandle then
    j
  else
    let q1 := if j.simbodyQ.isEmpty then List.replicate s.q.length (0 : ℚ) else j.simbodyQ
    let u1 := if j.simbodyU.isEmpty then List.replicate s.u.length (0 : ℚ) else j.simbodyU
    { j with
      simbodyQ := (List.range q1.length).map (fun i => s.getOneQ i),
      simbodyU := (List.range u1.length).map (fun i => s.getOneU i) }

/-- `SimbodyHingeJoint::RestoreSimbodyState(_state)`: no-op on an empty
mobilized-body handle; otherwise write each cached coordinate and
velocity back into the state at its index, one index at a time up to
each cache's size. -/
def SimbodyHingeJoint.RestoreSimbodyState (j : SimbodyHingeJoint) (s : SimState) :
    SimState :=
  if j.mobodIsEmptyHandle then
    s
  else
    let s1 := (List.range j.simbodyQ.length).foldl
      (fun acc i => acc.setOneQ i (j.simbodyQ.getD i 0)) s
    (List.range j.simbodyU.length).foldl
      (fun acc i => acc.setOneU i (j.simbodyU.getD i 0)) s1

/-- An output interface (`libgazebo::Iface`) as the controller consumes
it: only its open/subscriber count (`GetOpenCount()`) is read by the
scheduler. -/
structure Iface where
  openCount : Nat
deriving DecidableEq, Repr

/-- The mutable state of a `Controller` relevant to the scheduler:
`alwaysOn` is the `alwaysOn` parameter's value, `updateRate` the
`updateRate` parameter's stored value, `updatePeriod` and `lastUpdate`
the derived period and the simulation time of the last executed update,
and `ifaces` the attached output interfaces. -/
structure Controller where
  alwaysOn : Bool
  updateRate : ℚ
  updatePeriod : ℚ
  lastUpdate : ℚ
  ifaces : List Iface
deriving DecidableEq, Repr

/-- `Controller::SetUpdateRate(rate)`: `updatePeriod` becomes `0` when
`rate == 0` and `1/rate` otherwise, and the stored `updateRate`
parameter is set to `rate`. -/
def Controller.SetUpdateRate (c : Controller) (rate : ℚ) : Controller :=
  { c with
    updatePeriod := if rate = 0 then 0 else 1 / rate,
    updateRate := rate }

/-- `Controller::IsConnected()`: true if `alwaysOn` is set, else true iff
some attached interface has `GetOpenCount() > 0`.  (The spec names this
predicate `IsActive`.) -/
def Controller.IsConnected (c : Controller) : Bool :=
  if c.alwaysOn then
    true
  else
    c.ifaces.any (fun f => decide (0 < f.openCount))

/-- `Controller::Update()`: when `IsConnected() || alwaysOn`, run the
domain work (`UpdateChild`) and advance `lastUpdate` to the current
simulation time iff `(simTime - lastUpdate - updatePeriod) / physics_dt
>= 0`.  Returns the new controller state and whether the domain work
executed. -/
def Controller.Update (c : Controller) (simTime physicsDt : ℚ) : Controller × Bool :=
  if c.IsConnected || c.alwaysOn then
    if (simTime - c.lastUpdate - c.updatePeriod) / physicsDt ≥ 0 then
      ({ c with lastUpdate := simTime }, true)
    else
      (c, false)
  else
    (c, false)

/-- `Controller::Fini()`: delete every attached interface and clear the
collection (the `FiniChild` hook is external domain work). -/
def Controller.Fini (c : Controller) : Controller :=
  { c with ifaces := [] }


/-- Sample joint with a bound mobilized-body handle, one mobility, empty
caches, and physics not yet initialized; used to instantiate theorems at
concrete inputs. -/
def sampleJoint : SimbodyHingeJoint :=
  ⟨false, false, false, false, false, 1, ⟨[], []⟩, [], [], []⟩

/-- Sample joint whose caches are already sized (one coordinate, one
velocity). -/
def sampleJointCached : SimbodyHingeJoint :=
  ⟨false, false, false, false, false, 1, ⟨[], []⟩, [], [4], [5]⟩

/-- Sample live solver state with two coordinates and one velocity. -/
def sampleState : SimState :=
  ⟨[3, 5], [7]⟩

theorem map_getD_range (l : List ℚ) :
    (List.range l.length).map (fun i => l.getD i 0) = l := by
  apply List.ext_getElem
  · simp
  · intro i h1 h2
    simp [List.getD_eq_getElem?_getD, List.getElem?_eq_getElem h2]

theorem foldl_set_range (f : Nat → ℚ) (base : List ℚ) :
    ∀ k, k ≤ base.length →
      (List.range k).foldl (fun acc i => acc.set i (f i)) base
        = (List.range k).map f ++ base.drop k := by
  intro k
  induction k with
  | zero => simp
  | succ n ih =>
    intro h
    rw [List.range_succ, List.foldl_append, List.map_append, ih (by omega)]
    simp only [List.foldl_cons, List.foldl_nil, List.map_cons, List.map_nil]
    rw [List.set_append_right _ _ (by simp)]
    have hn : n < base.length := by omega
    rw [List.drop_eq_getElem_cons hn]
    simp only [List.length_map, List.length_range, Nat.sub_self,
      List.set_cons_zero, List.singleton_append]
    rw [List.append_assoc]
    rfl

theorem foldl_setOneQ_spec (l : List Nat) (f : Nat → ℚ) :
    ∀ s : SimState,
      l.foldl (fun acc i => acc.setOneQ i (f i)) s
        = ⟨l.foldl (fun acc i => acc.set i (f i)) s.q, s.u⟩ := by
  induction l with
  | nil => intro s; rfl
  | cons a t ih =>
    intro s
    rw [List.foldl_cons, List.foldl_cons, ih]
    rfl

theorem foldl_setOneU_spec (l : List Nat) (f : Nat → ℚ) :
    ∀ s : SimState,
      l.foldl (fun acc i => acc.setOneU i (f i)) s
        = ⟨s.q, l.foldl (fun acc i => acc.set i (f i)) s.u⟩ := by
  induction l with
  | nil => intro s; rfl
  | cons a t ih =>
    intro s
    rw [List.foldl_cons, List.foldl_cons, ih]
    rfl


/-- Fields of the joint other than the caches are unchanged by
`SaveSimbodyState`; in particular the handle stays bound. -/
theorem save_mobod (j : SimbodyHingeJoint) (s : SimState) :
    (j.SaveSimbodyState s).mobodIsEmptyHandle = j.mobodIsEmptyHandle := by
  cases hm : j.mobodIsEmptyHandle <;>
    simp [SimbodyHingeJoint.SaveSimbodyState, hm]

/-- After a save on a bound handle whose cache length matches (or is
empty), the position cache holds exactly the state's coordinates. -/
theorem save_simbodyQ (j : SimbodyHingeJoint) (s : SimState)
    (hm : j.mobodIsEmptyHandle = false)
    (hq : j.simbodyQ = [] ∨ j.simbodyQ.length = s.q.length) :
    (j.SaveSimbodyState s).simbodyQ = s.q := by
  have hlen : (if j.simbodyQ.isEmpty then List.replicate s.q.length (0 : ℚ)
      else j.simbodyQ).length = s.q.length := by
    cases he : j.simbodyQ.isEmpty with
    | false =>
      rcases hq with h | h
      · rw [h] at he; simp at he
      · simpa using h
    | true => simp
  simp only [SimbodyHingeJoint.SaveSimbodyState, hm, Bool.false_eq_true,
    if_false]
  rw [hlen]
  simp only [SimState.getOneQ]
  exact map_getD_range s.q

/-- After a save on a bound handle whose cache length matches (or is
empty), the velocity cache holds exactly the state's velocities. -/
theorem save_simbodyU (j : SimbodyHingeJoint) (s : SimState)
    (hm : j.mobodIsEmptyHandle = false)
    (hu : j.simbodyU = [] ∨ j.simbodyU.length = s.u.length) :
    (j.SaveSimbodyState s).simbodyU = s.u := by
  have hlen : (if j.simbodyU.isEmpty then List.replicate s.u.length (0 : ℚ)
      else j.simbodyU).length = s.u.length := by
    cases he : j.simbodyU.isEmpty with
    | false =>
      rcases hu with h | h
      · rw [h] at he; simp at he
      · simpa using h
    | true => simp
  simp only [SimbodyHingeJoint.SaveSimbodyState, hm, Bool.false_eq_true,
    if_false]
  rw [hlen]
  simp only [SimState.getOneU]
  exact map_getD_range s.u

/-- Restoring on a bound handle writes the caches into the target state
componentwise. -/
theorem restore_eq (j : SimbodyHingeJoint) (s : SimState)
    (hm : j.mobodIsEmptyHandle = false)
    (hq : j.simbodyQ.length ≤ s.q.length)
    (hu : j.simbodyU.length ≤ s.u.length) :
    j.RestoreSimbodyState s
      = ⟨(List.range j.simbodyQ.length).map (fun i => j.simbodyQ.getD i 0)
          ++ s.q.drop j.simbodyQ.length,
         (List.range j.simbodyU.length).map (fun i => j.simbodyU.getD i 0)
          ++ s.u.drop j.simbodyU.length⟩ := by
  simp only [SimbodyHingeJoint.RestoreSimbodyState, hm, Bool.false_eq_true,
    if_false]
  rw [foldl_setOneQ_spec, foldl_setOneU_spec]
  rw [foldl_set_range _ _ _ hq, foldl_set_range _ _ _ hu]

/-- Claim C1: for a controller with `IsConnected()` (the spec's
`IsActive()`) true, `Update` at simulation time `t` executes the domain
work iff `floor((t - lastUpdate - updatePeriod) / physicsDt) >= 0`, and
on execution advances `lastUpdate` to `t`; in particular, with
`lastUpdate = 0`, `updatePeriod = 0.1`, `physicsStepSize = 0.01`,
`Update` at `0.09` does not execute and `Update` at `0.10` executes and
sets `lastUpdate` to `0.10`. -/
theorem update_gate_floor (c : Controller) (t dt : ℚ)
    (h : c.IsConnected = true) :
    ((c.Update t dt).2 = true ↔ (0 : ℤ) ≤ ⌊(t - c.lastUpdate - c.updatePeriod) / dt⌋)
    ∧ ((c.Update t dt).2 = true → (c.Update t dt).1.lastUpdate = t)
    ∧ (((⟨true, 10, 1/10, 0, []⟩ : Controller).Update (9/100) (1/100)).2 = false
        ∧ ((⟨true, 10, 1/10, 0, []⟩ : Controller).Update (1/10) (1/100)).2 = true
        ∧ ((⟨true, 10, 1/10, 0, []⟩ : Controller).Update (1/10) (1/100)).1.lastUpdate = 1/10) := by
  have key : ∀ x : ℚ, ((0 : ℤ) ≤ ⌊x⌋ ↔ 0 ≤ x) := fun x => by
    rw [Int.le_floor]; norm_num
  refine ⟨?_, ?_, ?_, ?_, ?_⟩
  · simp only [Controller.Update, h, Bool.true_or, if_true, ge_iff_le]
    split_ifs with hc
    · simp only [key]; simpa using hc
    · simp only [key]; simpa using hc
  · intro he
    simp only [Controller.Update, h, Bool.true_or, if_true] at he ⊢
    split_ifs at he ⊢ with hc
    · rfl
  · norm_num [Controller.Update, Controller.IsConnected]
  · norm_num [Controller.Update, Controller.IsConnected]
  · norm_num [Controller.Update, Controller.IsConnected]

/-- Witness for C1 at a concrete active controller. -/
theorem update_gate_floor_witness :
    Controller.IsConnected ⟨true, 10, 1/10, 0, []⟩ = true
    ∧ (((⟨true, 10, 1/10, 0, []⟩ : Controller).Update (9/100) (1/100)).2 = false
        ∧ ((⟨true, 10, 1/10, 0, []⟩ : Controller).Update (1/10) (1/100)).2 = true
        ∧ ((⟨true, 10, 1/10, 0, []⟩ : Controller).Update (1/10) (1/100)).1.lastUpdate = 1/10) :=
  ⟨rfl, (update_gate_floor ⟨true, 10, 1/10, 0, []⟩ (1/10) (1/100) rfl).2.2⟩

/-- Claim C2: for a joint with a bound solver handle (and a cache that is
empty or already sized to the state, as the sizing invariant
establishes), `SaveSimbodyState` from a live state followed by
`RestoreSimbodyState` into a freshly constructed zero-initialized state
object reproduces every original position and velocity value. -/
theorem save_restore_roundtrip (j : SimbodyHingeJoint) (s : SimState)
    (hm : j.mobodIsEmptyHandle = false)
    (hq : j.simbodyQ = [] ∨ j.simbodyQ.length = s.q.length)
    (hu : j.simbodyU = [] ∨ j.simbodyU.length = s.u.length) :
    ((j.SaveSimbodyState s).RestoreSimbodyState
        ⟨List.replicate s.q.length 0, List.replicate s.u.length 0⟩).q = s.q
    ∧ ((j.SaveSimbodyState s).RestoreSimbodyState
        ⟨List.replicate s.q.length 0, List.replicate s.u.length 0⟩).u = s.u := by
  have h1 : (j.SaveSimbodyState s).simbodyQ = s.q := save_simbodyQ j s hm hq
  have h2 : (j.SaveSimbodyState s).simbodyU = s.u := save_simbodyU j s hm hu
  have h3 : (j.SaveSimbodyState s).mobodIsEmptyHandle = false := by
    rw [save_mobod]; exact hm
  rw [restore_eq _ _ h3 (by simp [h1]) (by simp [h2]), h1, h2]
  refine ⟨?_, ?_⟩
  · show (List.range s.q.length).map (fun i => s.q.getD i 0)
        ++ (List.replicate s.q.length (0 : ℚ)).drop s.q.length = s.q
    rw [map_getD_range]
    simp
  · show (List.range s.u.length).map (fun i => s.u.getD i 0)
        ++ (List.replicate s.u.length (0 : ℚ)).drop s.u.length = s.u
    rw [map_getD_range]
    simp

/-- Witness for C2 at a concrete fresh joint and a concrete live state. -/
theorem save_restore_roundtrip_witness :
    sampleJoint.mobodIsEmptyHandle = false
    ∧ ((sampleJoint.SaveSimbodyState sampleState).RestoreSimbodyState
        ⟨List.replicate sampleState.q.length 0,
         List.replicate sampleState.u.length 0⟩).q = sampleState.q
    ∧ ((sampleJoint.SaveSimbodyState sampleState).RestoreSimbodyState
        ⟨List.replicate sampleState.q.length 0,
         List.replicate sampleState.u.length 0⟩).u = sampleState.u :=
  ⟨rfl,
   (save_restore_roundtrip sampleJoint sampleState rfl (Or.inl rfl) (Or.inl rfl)).1,
   (save_restore_roundtrip sampleJoint sampleState rfl (Or.inl rfl) (Or.inl rfl)).2⟩

/-- A save on non-empty caches never changes their lengths. -/
theorem save_length (j : SimbodyHingeJoint) (s : SimState)
    (hq : j.simbodyQ ≠ []) (hu : j.simbodyU ≠ []) :
    (j.SaveSimbodyState s).simbodyQ.length = j.simbodyQ.length
    ∧ (j.SaveSimbodyState s).simbodyU.length = j.simbodyU.length := by
  have hq' : j.simbodyQ.isEmpty = false := by
    simpa [List.isEmpty_iff] using hq
  have hu' : j.simbodyU.isEmpty = false := by
    simpa [List.isEmpty_iff] using hu
  cases hm : j.mobodIsEmptyHandle <;>
    simp [SimbodyHingeJoint.SaveSimbodyState, hm, hq', hu']

/-- Claim C3: once a joint's cache sequences are non-empty, every
subsequent `SaveSimbodyState` leaves their lengths unchanged, so two
consecutive saves never change the lengths after the first. -/
theorem save_idempotent_sizing (j : SimbodyHingeJoint) (s s2 : SimState)
    (hq : j.simbodyQ ≠ []) (hu : j.simbodyU ≠ []) :
    ((j.SaveSimbodyState s).simbodyQ.length = j.simbodyQ.length
      ∧ (j.SaveSimbodyState s).simbodyU.length = j.simbodyU.length)
    ∧ (((j.SaveSimbodyState s).SaveSimbodyState s2).simbodyQ.length
        = (j.SaveSimbodyState s).simbodyQ.length
      ∧ ((j.SaveSimbodyState s).SaveSimbodyState s2).simbodyU.length
        = (j.SaveSimbodyState s).simbodyU.length) := by
  have h1 := save_length j s hq hu
  have hq2 : (j.SaveSimbodyState s).simbodyQ ≠ [] := by
    intro hnil
    rw [hnil] at h1
    exact hq (List.length_eq_zero.mp h1.1.symm)
  have hu2 : (j.SaveSimbodyState s).simbodyU ≠ [] := by
    intro hnil
    rw [hnil] at h1
    exact hu (List.length_eq_zero.mp h1.2.symm)
  exact ⟨h1, save_length _ s2 hq2 hu2⟩

/-- Witness for C3 at a concrete joint with sized caches. -/
theorem save_idempotent_sizing_witness :
    (sampleJointCached.simbodyQ ≠ [] ∧ sampleJointCached.simbodyU ≠ [])
    ∧ (((sampleJointCached.SaveSimbodyState sampleState).simbodyQ.length
          = sampleJointCached.simbodyQ.length
        ∧ (sampleJointCached.SaveSimbodyState sampleState).simbodyU.length
          = sampleJointCached.simbodyU.length)
      ∧ (((sampleJointCached.SaveSimbodyState sampleState).SaveSimbodyState
            sampleState).simbodyQ.length
          = (sampleJointCached.SaveSimbodyState sampleState).simbodyQ.length
        ∧ ((sampleJointCached.SaveSimbodyState sampleState).SaveSimbodyState
            sampleState).simbodyU.length
          = (sampleJointCached.SaveSimbodyState sampleState).simbodyU.length)) :=
  ⟨⟨by decide, by decide⟩,
   save_idempotent_sizing sampleJointCached sampleState sampleState
     (by decide) (by decide)⟩

/-- Claim C4: `GetVelocity(i)` for an index at or above the velocity
count returns the NaN sentinel with a `gzerr` emission and leaves the
joint, its cache, and the solver state untouched. -/
theorem getVelocity_out_of_range (j : SimbodyHingeJoint) (i : Nat)
    (h : j.GetAngleCount ≤ i) :
    j.GetVelocity i = (j, GzReal.nan, [LogMsg.logErr]) := by
  rw [SimbodyHingeJoint.GetVelocity, if_neg (Nat.not_lt.mpr h)]

/-- Witness for C4 at a concrete joint and index. -/
theorem getVelocity_out_of_range_witness :
    sampleJoint.GetAngleCount ≤ 2
    ∧ sampleJoint.GetVelocity 2 = (sampleJoint, GzReal.nan, [LogMsg.logErr]) :=
  ⟨by decide, getVelocity_out_of_range sampleJoint 2 (by decide)⟩

/-- Claim C5: for an in-range index, `GetVelocity` called before the
solver reports initialized returns exactly `0.0` (never the NaN
sentinel) and `GetAngleImpl` likewise returns the `0.0` angle; once the
solver is initialized, both read the live value from the solver
state. -/
theorem not_ready_defaults (j : SimbodyHingeJoint) (i : Nat)
    (h : i < j.GetAngleCount) :
    ((j.physicsInitialized && j.simbodyPhysicsInitialized) = false →
      (j.GetVelocity i).2.1 = GzReal.fin 0
      ∧ (j.GetAngleImpl i).2.1 = GzReal.fin 0)
    ∧ ((j.physicsInitialized && j.simbodyPhysicsInitialized) = true →
      (j.GetVelocity i).2.1 = GzReal.fin (j.integState.getOneU i)
      ∧ (j.GetAngleImpl i).2.1 = GzReal.fin (j.integState.getOneQ i)) := by
  constructor <;> intro hb <;>
    simp [SimbodyHingeJoint.GetVelocity, SimbodyHingeJoint.GetAngleImpl, h, hb]

/-- Witness for C5 at a concrete joint whose solver flags are down. -/
theorem not_ready_defaults_witness :
    0 < sampleJoint.GetAngleCount
    ∧ ((sampleJoint.GetVelocity 0).2.1 = GzReal.fin 0
        ∧ (sampleJoint.GetAngleImpl 0).2.1 = GzReal.fin 0) :=
  ⟨by decide, (not_ready_defaults sampleJoint 0 (by decide)).1 rfl⟩

/-- Claim C6: `SetUpdateRate(rate)` sets `updatePeriod` to `0` when
`rate == 0` and to `1/rate` otherwise, and stores `rate` itself; in
particular `SetUpdateRate(0)` gives period `0` and `SetUpdateRate(10)`
gives period `0.1`. -/
theorem setUpdateRate_period (c : Controller) (rate : ℚ) :
    (c.SetUpdateRate rate).updatePeriod = (if rate = 0 then 0 else 1 / rate)
    ∧ (c.SetUpdateRate rate).updateRate = rate
    ∧ (c.SetUpdateRate 0).updatePeriod = 0
    ∧ (c.SetUpdateRate 10).updatePeriod = 1 / 10 :=
  ⟨rfl, rfl, by simp [Controller.SetUpdateRate],
   by norm_num [Controller.SetUpdateRate]⟩

/-- Claim C7: `IsConnected()` (the spec's `IsActive()`) is true iff
`alwaysOn` is true or some attached interface has an open count of at
least one; with no interfaces it reduces to `alwaysOn`; a single
interface at count 0 with `alwaysOn` false gives false, and raising that
count to 1 (changing nothing else) gives true. -/
theorem isConnected_active (c : Controller) :
    (c.IsConnected = true ↔ (c.alwaysOn = true ∨ ∃ f ∈ c.ifaces, 1 ≤ f.openCount))
    ∧ (c.ifaces = [] → (c.IsConnected = true ↔ c.alwaysOn = true))
    ∧ (∀ rate period last : ℚ,
        (Controller.mk false rate period last [Iface.mk 0]).IsConnected = false
        ∧ (Controller.mk false rate period last [Iface.mk 1]).IsConnected = true) := by
  refine ⟨?_, ?_, ?_⟩
  · by_cases ha : c.alwaysOn
    · simp [Controller.IsConnected, ha]
    · simp only [Bool.not_eq_true] at ha
      simp [Controller.IsConnected, ha, List.any_eq_true, Nat.lt_iff_add_one_le]
  · intro hi
    cases ha : c.alwaysOn <;> simp [Controller.IsConnected, hi, ha]
  · intro rate period last
    exact ⟨by simp [Controller.IsConnected], by simp [Controller.IsConnected]⟩

/-- Witness for C7 at a concrete controller with one interface. -/
theorem isConnected_active_witness :
    Controller.IsConnected ⟨false, 10, 1/10, 0, [⟨0⟩]⟩ = false
    ∧ Controller.IsConnected ⟨false, 10, 1/10, 0, [⟨1⟩]⟩ = true :=
  (isConnected_active ⟨false, 10, 1/10, 0, [⟨0⟩]⟩).2.2 10 (1/10) 0

/-- Claim C9: `Fini()` clears the interface collection, and afterwards
`IsConnected()` (the spec's `IsActive()`) is false whenever `alwaysOn`
is false, regardless of the interfaces attached before. -/
theorem fini_deactivates (c : Controller) :
    (c.Fini).ifaces = []
    ∧ (c.alwaysOn = false → (c.Fini).IsConnected = false) := by
  refine ⟨rfl, fun ha => ?_⟩
  simp [Controller.Fini, Controller.IsConnected, ha]

/-- Witness for C9 at a concrete controller with a subscribed interface. -/
theorem fini_deactivates_witness :
    ((⟨false, 10, 1/10, 0, [⟨3⟩]⟩ : Controller).Fini).ifaces = []
    ∧ ((⟨false, 10, 1/10, 0, [⟨3⟩]⟩ : Controller).Fini).IsConnected = false :=
  ⟨(fini_deactivates ⟨false, 10, 1/10, 0, [⟨3⟩]⟩).1,
   (fini_deactivates ⟨false, 10, 1/10, 0, [⟨3⟩]⟩).2 rfl⟩

/-- Counterexample for C8: the claim says an out-of-bounds indexed write
is logged as an error for both `SetVelocity` and `SetForceImpl`, but an
out-of-bounds `SetForceImpl` (index 5 on a joint with one mobility)
emits no message at all. -/
theorem setForceImpl_no_error_log :
    (sampleJoint.SetForceImpl 5 3).2 = []
    ∧ LogMsg.logErr ∉ (sampleJoint.SetForceImpl 5 3).2 := by
  exact ⟨by decide, by decide⟩

/-- Claim C8 (amended): an out-of-bounds indexed write is ignored — the
solver state, the cache, and all other joint state are unchanged —
with `SetVelocity` logging an error while `SetForceImpl` is silently
ignored; and `SetVelocity` never updates the cache even for in-range
writes. -/
theorem write_out_of_range_ignored (j : SimbodyHingeJoint) (i : Nat) (v : ℚ)
    (h : j.GetAngleCount ≤ i) :
    (j.SetVelocity i v = (j, [LogMsg.logErr])
      ∧ j.SetForceImpl i v = (j, []))
    ∧ (∀ k : Nat, ∀ w : ℚ,
        (j.SetVelocity k w).1.simbodyQ = j.simbodyQ
        ∧ (j.SetVelocity k w).1.simbodyU = j.simbodyU) := by
  have hn : ¬ i < j.GetAngleCount := Nat.not_lt.mpr h
  refine ⟨⟨?_, ?_⟩, ?_⟩
  · rw [SimbodyHingeJoint.SetVelocity, if_neg hn]
  · simp [SimbodyHingeJoint.SetForceImpl, hn]
  · intro k w
    by_cases hk : k < j.GetAngleCount <;>
      simp [SimbodyHingeJoint.SetVelocity, hk]

/-- Witness for the amended C8 at a concrete joint and index. -/
theorem write_out_of_range_ignored_witness :
    sampleJoint.GetAngleCount ≤ 5
    ∧ (sampleJoint.SetVelocity 5 3 = (sampleJoint, [LogMsg.logErr])
        ∧ sampleJoint.SetForceImpl 5 3 = (sampleJoint, [])) :=
  ⟨by decide, (write_out_of_range_ignored sampleJoint 5 3 (by decide)).1⟩

/-- Claim C10: for every indexed read accessor, the out-of-range check
takes precedence over the not-yet-ready check: an out-of-range index
yields the NaN sentinel (NaN vector for `GetGlobalAxis`) whatever the
initialization and stepping flags are. -/
theorem out_of_range_precedence (j : SimbodyHingeJoint)
    (zW localAxis : ℚ × ℚ × ℚ) (i : Nat) (h : j.GetAngleCount ≤ i) :
    (j.GetVelocity i).2.1 = GzReal.nan
    ∧ (j.GetAngleImpl i).2.1 = GzReal.nan
    ∧ (j.GetGlobalAxis zW localAxis i).1
        = ⟨GzReal.nan, GzReal.nan, GzReal.nan⟩ := by
  have hn : ¬ i < j.GetAngleCount := Nat.not_lt.mpr h
  refine ⟨?_, ?_, ?_⟩
  · simp [SimbodyHingeJoint.GetVelocity, hn]
  · simp [SimbodyHingeJoint.GetAngleImpl, hn]
  · simp [SimbodyHingeJoint.GetGlobalAxis, hn, h]

/-- Witness for C10 at a concrete uninitialized joint and index. -/
theorem out_of_range_precedence_witness :
    sampleJoint.GetAngleCount ≤ 3
    ∧ ((sampleJoint.GetVelocity 3).2.1 = GzReal.nan
        ∧ (sampleJoint.GetAngleImpl 3).2.1 = GzReal.nan
        ∧ (sampleJoint.GetGlobalAxis (0, 0, 0) (0, 0, 0) 3).1
            = ⟨GzReal.nan, GzReal.nan, GzReal.nan⟩) :=
  ⟨by decide, out_of_range_precedence sampleJoint (0, 0, 0) (0, 0, 0) 3 (by decide)⟩

end Gazebo
